import Mathlib

/-!
A verification development for the sessionclean session file-tracking engine.

The Python sources are embedded shallowly:

* `FilterEngine.should_include` (filter_engine.py) over a static filesystem
  view `FSView : String → Option FileStat`, where `none` models an `OSError`
  (vanished file / permission denied) on any attribute or size read;
* `SnapshotDatabase` (database.py) as two in-memory tables: the `snapshot`
  (baseline) table keyed by path via `INSERT OR IGNORE`, and the `new_files`
  table keyed by path via `INSERT OR REPLACE` / `DELETE`;
* `SessionFileHandler` (monitor.py) event handlers as state transformers on
  the database, with the wall-clock `time.time()` value passed in as `now`;
* `Scanner._iter_files` (scanner.py) over an explicit directory tree
  (`Entry`), where `Entry.other` stands for entries that are neither regular
  files nor directories under `follow_symlinks=False` (symlinks, or entries
  whose stat raises and is skipped);
* `ShutdownHook._safe_callback` / `allow_shutdown` (shutdown_hook.py) as
  functions on an explicit hook state, with the Win32 call outcome captured
  in `Win32Env` and the review callback outcome in `CallbackOutcome`.

String lowering uses Lean's ASCII `String.toLower`, which agrees with
Python's `str.lower()` on the ASCII paths these claims are about.
-/

namespace SessionClean

/-- Does the needle match at the front of the haystack?  Character-by-character
comparison, a building block for Python's `in` substring test. -/
def charsMatchAt : List Char → List Char → Bool
  | [], _ => true
  | _ :: _, [] => false
  | a :: as, b :: bs => a == b && charsMatchAt as bs

/-- Does the needle occur anywhere in the haystack? -/
def charsContain (needle : List Char) : List Char → Bool
  | [] => needle.isEmpty
  | b :: bs => charsMatchAt needle (b :: bs) || charsContain needle bs

/-- Models the Python expression `needle in haystack` on strings. -/
def substrIn (needle haystack : String) : Bool :=
  charsContain needle.data haystack.data

/-- Models Python's `str.lower()` for the ASCII paths in play (kernel-reducible
counterpart of `String.toLower`). -/
def strLower (s : String) : String :=
  String.mk (s.data.map Char.toLower)

/-- Split a character list at every separator (kernel-reducible counterpart of
`String.split`): the groups between separators, empty groups included. -/
def splitChars (p : Char → Bool) : List Char → List (List Char)
  | [] => [[]]
  | c :: rest =>
      if p c then [] :: splitChars p rest
      else
        match splitChars p rest with
        | [] => [[c]]
        | g :: gs => (c :: g) :: gs

/-- Models `pathlib.PureWindowsPath(p).parts` for the relative and
drive-qualified paths the filter sees: split on the two Windows separators and
drop empty components.  (A drive anchor is rendered as `c:` where pathlib
renders `c:\`; no ignored directory name collides with a drive anchor, so the
difference is invisible to every consumer in this development.) -/
def pathParts (p : String) : List String :=
  ((splitChars (fun c => c == '\\' || c == '/') p.data).filter fun g =>
    !g.isEmpty).map String.mk

/-- Models `pathlib.PurePath(p).name` for file paths: the final component. -/
def pathName (p : String) : String :=
  (pathParts p).getLastD ""

/-- Index of the last `'.'` in a file name, if any (Python's `name.rfind('.')`
restricted to the found case). -/
def lastDotIdx (name : List Char) : Option Nat :=
  match name.reverse.findIdx? (· == '.') with
  | none => none
  | some j => some (name.length - 1 - j)

/-- Models `pathlib.PurePath(p).suffix`: the extension of the final component,
nonempty only when the last dot sits strictly inside the name
(`0 < i < len(name) - 1`). -/
def pathSuffix (p : String) : String :=
  let name := (pathName p).data
  match lastDotIdx name with
  | none => ""
  | some i => if 0 < i && i + 1 < name.length then String.mk (name.drop i) else ""

/-- Models `os.path.join(root, name)` (equivalently an `os.scandir` entry's
`.path`) on Windows, for a plain separator-free entry name and a non-drive
root. -/
def joinPath (root name : String) : String :=
  match root.data.getLast? with
  | none => name
  | some c => if c == '\\' || c == '/' then root ++ name else root ++ "\\" ++ name

/-- Models `file_utils.get_file_type`: lower-cased extension without the dot. -/
def get_file_type (p : String) : String :=
  let ext := strLower (pathSuffix p)
  if ext == "" then "" else String.mk (ext.data.dropWhile (· == '.'))

/-- What one stat/size read of a path can observe.  `attrsAvail` is whether
`st_file_attributes` exists (i.e. the process runs on Windows). -/
structure FileStat where
  attrsAvail : Bool
  hidden : Bool
  system : Bool
  size : Nat
deriving DecidableEq

/-- A static filesystem view: what `os.stat` / `os.path.getsize` return for a
path, `none` when the access raises `OSError` (vanished file, permission
denied). -/
def FSView : Type := String → Option FileStat

/-- `constants.IGNORED_EXTENSIONS`. -/
def IGNORED_EXTENSIONS : List String :=
  [".tmp", ".temp", ".crdownload", ".partial", ".part", ".download",
   ".log", ".etl",
   ".dll", ".sys", ".dat", ".ini", ".drv",
   ".lock", ".lck", ".db-journal", ".db-wal", ".db-shm",
   ".pyc", ".pyo", ".o", ".obj", ".class",
   ".cache"]

/-- `constants.IGNORED_DIRECTORIES`. -/
def IGNORED_DIRECTORIES : List String :=
  ["appdata", ".cache", "__pycache__", "node_modules", ".git", ".hg", ".svn",
   "temp", "tmp", "$recycle.bin", "system volume information", ".vscode",
   ".idea", ".vs", ".gradle", "build", "dist", "venv", ".venv", "env", ".env"]

/-- `constants.IGNORED_PATH_FRAGMENTS`. -/
def IGNORED_PATH_FRAGMENTS : List String :=
  ["\\appdata\\local\\temp",
   "\\appdata\\local\\microsoft",
   "\\appdata\\local\\google\\chrome\\user data",
   "\\appdata\\local\\packages",
   "\\appdata\\roaming\\microsoft",
   "\\programdata\\",
   "\\windows\\",
   "\\$recycle.bin\\",
   "\\system volume information\\"]

/-- The filter-relevant fields of `config.AppConfig`. -/
structure AppConfig where
  ignored_extensions : List String
  ignored_directories : List String
  show_hidden_files : Bool

/-- `AppConfig` dataclass defaults: empty extras, hidden files not shown. -/
def AppConfig.defaults : AppConfig := ⟨[], [], false⟩

/-- The state of a constructed `FilterEngine`: merged denylists and the hidden
policy, computed once at construction. -/
structure FilterEngine where
  ignored_extensions : List String
  ignored_directories : List String
  ignored_path_fragments : List String
  show_hidden : Bool

/-- Models `FilterEngine.__init__`: built-in defaults merged with the
user-configured extras, extras lower-cased. -/
def FilterEngine.ofConfig (cfg : AppConfig) : FilterEngine :=
  ⟨IGNORED_EXTENSIONS ++ cfg.ignored_extensions.map strLower,
   IGNORED_DIRECTORIES ++ cfg.ignored_directories.map strLower,
   IGNORED_PATH_FRAGMENTS,
   cfg.show_hidden_files⟩

/-- The engine obtained from a default configuration. -/
def defaultEngine : FilterEngine := FilterEngine.ofConfig AppConfig.defaults

/-- Tier 1: `_matches_ignored_path_fragment` (substring test on the lowered
path). -/
def FilterEngine.matches_ignored_path_fragment (f : FilterEngine)
    (path_lower : String) : Bool :=
  f.ignored_path_fragments.any fun frag => substrIn frag path_lower

/-- Tier 2: `_matches_ignored_directory` (any path component in the ignored
set). -/
def FilterEngine.matches_ignored_directory (f : FilterEngine)
    (path_lower : String) : Bool :=
  (pathParts path_lower).any fun part => f.ignored_directories.contains part

/-- Tier 3: `_matches_ignored_extension`. -/
def FilterEngine.matches_ignored_extension (f : FilterEngine)
    (path_lower : String) : Bool :=
  f.ignored_extensions.contains (pathSuffix path_lower)

/-- Tier 4: `_is_hidden_or_system`.  An `AttributeError` (no
`st_file_attributes`) or `OSError` is swallowed and reads as `false`. -/
def is_hidden_or_system (fs : FSView) (p : String) : Bool :=
  match fs p with
  | none => false
  | some st => st.attrsAvail && (st.hidden || st.system)

/-- Tier 5: `_is_zero_byte`.  An `OSError` reads as `true` ("if we can't check,
skip it"). -/
def is_zero_byte (fs : FSView) (p : String) : Bool :=
  match fs p with
  | none => true
  | some st => st.size == 0

/-- Models `FilterEngine.should_include`: the tier chain, cheapest first,
short-circuiting on the first disqualifier.  Total by construction — every
`OSError` the Python code could see is already absorbed inside tiers 4 and 5,
and the function returns a `Bool` on every input. -/
def FilterEngine.should_include (f : FilterEngine) (fs : FSView)
    (file_path : String) : Bool :=
  let path_lower := strLower file_path
  if f.matches_ignored_path_fragment path_lower then false
  else if f.matches_ignored_directory path_lower then false
  else if f.matches_ignored_extension path_lower then false
  else if !f.show_hidden && is_hidden_or_system fs file_path then false
  else if is_zero_byte fs file_path then false
  else true

/-- One row of the `snapshot` (baseline) table: `(path, mtime, size)`. -/
abbrev SnapRow := String × Int × Nat

/-- One row of the `new_files` table. -/
structure NewFileRow where
  path : String
  size : Nat
  created_at : Int
  file_type : String
deriving DecidableEq

/-- The two tables owned by `SnapshotDatabase`. -/
structure SnapshotDatabase where
  snapshot : List SnapRow
  new_files : List NewFileRow
deriving DecidableEq

/-- `SnapshotDatabase.initialize`: create the schema and wipe both tables. -/
def SnapshotDatabase.init : SnapshotDatabase := ⟨[], []⟩

/-- One `INSERT OR IGNORE INTO snapshot`: a row whose path is already present
is skipped. -/
def insertIgnore (snap : List SnapRow) (r : SnapRow) : List SnapRow :=
  if snap.any (fun row => row.1 == r.1) then snap else snap ++ [r]

/-- Models `store_snapshot_batch`: `executemany` of `INSERT OR IGNORE`,
processed left to right. -/
def SnapshotDatabase.store_snapshot_batch (db : SnapshotDatabase)
    (file_records : List SnapRow) : SnapshotDatabase :=
  ⟨file_records.foldl insertIgnore db.snapshot, db.new_files⟩

/-- Models `is_in_snapshot`: `SELECT 1 FROM snapshot WHERE path = ?` — SQLite
`=` on TEXT under the default BINARY collation, i.e. exact string equality. -/
def SnapshotDatabase.is_in_snapshot (db : SnapshotDatabase) (p : String) : Bool :=
  db.snapshot.any fun row => row.1 == p

/-- The paths currently stored in the baseline table. -/
def snapPaths (db : SnapshotDatabase) : List String :=
  db.snapshot.map Prod.fst

/-- The baseline row stored for a path, if any. -/
def snapLookup (db : SnapshotDatabase) (p : String) : Option SnapRow :=
  db.snapshot.find? fun row => row.1 == p

/-- Models `record_new_file`: `INSERT OR REPLACE INTO new_files`. -/
def SnapshotDatabase.record_new_file (db : SnapshotDatabase) (p : String)
    (size : Nat) (created_at : Int) (file_type : String) : SnapshotDatabase :=
  ⟨db.snapshot,
   (db.new_files.filter fun r => r.path != p) ++ [⟨p, size, created_at, file_type⟩]⟩

/-- Models `remove_new_file`: `DELETE FROM new_files WHERE path = ?`. -/
def SnapshotDatabase.remove_new_file (db : SnapshotDatabase) (p : String) :
    SnapshotDatabase :=
  ⟨db.snapshot, db.new_files.filter fun r => r.path != p⟩

/-- Is a path currently tracked in the `new_files` table? -/
def hasNewFile (db : SnapshotDatabase) (p : String) : Bool :=
  db.new_files.any fun r => r.path == p

/-- The record shape returned by `get_all_new_files`: `name` and `directory`
are derived from the path at read time. -/
structure NewFileView where
  path : String
  name : String
  size : Nat
  created_at : Int
  file_type : String
  directory : String
deriving DecidableEq

/-- Models `str(pathlib.PurePath(p).parent)` for the relative and
drive-qualified paths stored by the monitor. -/
def pathParent (p : String) : String :=
  match (pathParts p).dropLast with
  | [] => "."
  | ps => String.intercalate "\\" ps

/-- The dict built per row by `get_all_new_files`. -/
def viewOf (r : NewFileRow) : NewFileView :=
  ⟨r.path, pathName r.path, r.size, r.created_at, r.file_type, pathParent r.path⟩

/-- The comparison realised by `ORDER BY created_at DESC`: `a` may come before
`b` when `a` is at least as recent. -/
def newerFirst (a b : NewFileRow) : Prop := b.created_at ≤ a.created_at

instance : DecidableRel newerFirst := fun a b => Int.decLe _ _

instance : IsTotal NewFileRow newerFirst := ⟨fun a b => le_total b.created_at a.created_at⟩

instance : IsTrans NewFileRow newerFirst := ⟨fun _ _ _ h1 h2 => le_trans h2 h1⟩

/-- Models `get_all_new_files`: all rows ordered by `created_at` descending,
each rendered through `viewOf`. -/
def SnapshotDatabase.get_all_new_files (db : SnapshotDatabase) : List NewFileView :=
  (List.insertionSort newerFirst db.new_files).map viewOf

/-- Models `get_new_files_count`. -/
def SnapshotDatabase.get_new_files_count (db : SnapshotDatabase) : Nat :=
  db.new_files.length

/-- A watchdog file-system event as seen by `SessionFileHandler` (for create
and delete events `dest_path` is unused). -/
structure FileEvent where
  src_path : String
  dest_path : String
  is_directory : Bool

/-- Models `SessionFileHandler._try_record`.  `now` is the `time.time()` value
at the moment of the event; a `none` from the size read means the `OSError`
branch: the event is logged and dropped. -/
def try_record (f : FilterEngine) (fs : FSView) (now : Int)
    (db : SnapshotDatabase) (file_path : String) : SnapshotDatabase :=
  if !(f.should_include fs file_path) then db
  else if db.is_in_snapshot file_path then db
  else
    match fs file_path with
    | none => db
    | some st => db.record_new_file file_path st.size now (get_file_type file_path)

/-- Models `SessionFileHandler.on_created`. -/
def on_created (f : FilterEngine) (fs : FSView) (now : Int)
    (db : SnapshotDatabase) (event : FileEvent) : SnapshotDatabase :=
  if event.is_directory then db else try_record f fs now db event.src_path

/-- Models `SessionFileHandler.on_moved`: remove the source unconditionally,
then run the create-path check on the destination. -/
def on_moved (f : FilterEngine) (fs : FSView) (now : Int)
    (db : SnapshotDatabase) (event : FileEvent) : SnapshotDatabase :=
  if event.is_directory then db
  else try_record f fs now (db.remove_new_file event.src_path) event.dest_path

/-- Models `SessionFileHandler.on_deleted`. -/
def on_deleted (db : SnapshotDatabase) (event : FileEvent) : SnapshotDatabase :=
  if event.is_directory then db else db.remove_new_file event.src_path

/-- A directory entry as `os.scandir` classifies it under
`follow_symlinks=False`: a regular file (with its stat results), a
subdirectory (with its entries), or anything else — symlinks, and entries
whose per-entry stat raises and is skipped by the `continue` branch. -/
inductive Entry where
  | file (name : String) (mtime : Int) (size : Nat)
  | dir (name : String) (children : List Entry)
  | other (name : String)

mutual

/-- Models `Scanner._iter_files` applied to a directory listing: yield
`(path, mtime, size)` for the files, recurse into non-ignored subdirectories
when `recursive` is set. -/
def iterFiles (ign : List String) (recursive : Bool) (root : String) :
    List Entry → List SnapRow
  | [] => []
  | e :: rest => iterEntry ign recursive root e ++ iterFiles ign recursive root rest

/-- The per-entry branch of `Scanner._iter_files`: the only filter state it
consults is the ignored-directory set, and only for directory names. -/
def iterEntry (ign : List String) (recursive : Bool) (root : String) :
    Entry → List SnapRow
  | .file n m s => [(joinPath root n, m, s)]
  | .dir n ch =>
      if recursive && !(ign.contains (strLower n)) then
        iterFiles ign recursive (joinPath root n) ch
      else []
  | .other _ => []

end

/-- The mutable state of a `ShutdownHook`: the hidden window handle (`none`
before creation; Win32 never hands out handle 0) and the block flag. -/
structure HookState where
  hwnd : Option Nat
  shutdown_blocked : Bool
deriving DecidableEq

/-- Outcome of the Win32 calls the hook makes: whether
`ShutdownBlockReasonDestroy` succeeds. -/
structure Win32Env where
  destroyOk : Bool

/-- Models `ShutdownHook.allow_shutdown`: destroy the block reason only when a
window exists and the block is set; a failing Win32 call is logged and leaves
the flag untouched. -/
def allow_shutdown (env : Win32Env) (s : HookState) : HookState :=
  if (s.hwnd.getD 0 != 0) && s.shutdown_blocked then
    if env.destroyOk then ⟨s.hwnd, false⟩ else s
  else s

/-- Whether the externally supplied review callback returns or throws. -/
inductive CallbackOutcome where
  | ok
  | throws
deriving DecidableEq

/-- Models `ShutdownHook._safe_callback`, the coordinator's handler for one
review request (spawned off the signal path by the query handler).  The
returned `Nat` counts how many times the handler itself invoked
`allow_shutdown` before returning: on a throwing callback the except-branch
runs it exactly once; on a normal return the release is left to the external
orchestrator. -/
def safe_callback (env : Win32Env) (cb : CallbackOutcome) (s : HookState) :
    HookState × Nat :=
  match cb with
  | .ok => (s, 0)
  | .throws => (allow_shutdown env s, 1)

/-! ## Helper lemmas shared across the development -/

theorem hasNewFile_record_new_file (db : SnapshotDatabase) (p : String)
    (size : Nat) (created_at : Int) (file_type : String) (q : String) :
    hasNewFile (db.record_new_file p size created_at file_type) q
      = if q = p then true else hasNewFile db q := by
  unfold hasNewFile SnapshotDatabase.record_new_file
  by_cases hqp : q = p
  · subst hqp
    simp
  · simp only [List.any_append, List.any_cons, List.any_nil]
    have hpq : (p == q) = false := by
      simp [Ne.symm hqp]
    rw [if_neg hqp]
    simp only [hpq, Bool.or_false]
    induction db.new_files with
    | nil => rfl
    | cons r rs ih =>
      by_cases hr : r.path = p
      · have h1 : (r.path != p) = false := by simp [hr]
        have h2 : (r.path == q) = false := by simp [hr, Ne.symm hqp]
        simp [List.filter_cons, h1, h2, ih]
      · have h1 : (r.path != p) = true := by simp [hr]
        simp [List.filter_cons, h1, ih]

theorem hasNewFile_remove_new_file (db : SnapshotDatabase) (p q : String) :
    hasNewFile (db.remove_new_file p) q
      = if q = p then false else hasNewFile db q := by
  unfold hasNewFile SnapshotDatabase.remove_new_file
  by_cases hqp : q = p
  · subst hqp
    rw [if_pos rfl]
    simp only []
    induction db.new_files with
    | nil => rfl
    | cons r rs ih =>
      by_cases hr : r.path = q
      · have h1 : (r.path != q) = false := by simp [hr]
        simp [List.filter_cons, h1, ih]
      · have h1 : (r.path != q) = true := by simp [hr]
        have h2 : (r.path == q) = false := by simp [hr]
        simp [List.filter_cons, h1, h2, ih]
  · rw [if_neg hqp]
    simp only []
    induction db.new_files with
    | nil => rfl
    | cons r rs ih =>
      by_cases hr : r.path = p
      · have h1 : (r.path != p) = false := by simp [hr]
        have h2 : (r.path == q) = false := by simp [hr, Ne.symm hqp]
        simp [List.filter_cons, h1, h2, ih]
      · have h1 : (r.path != p) = true := by simp [hr]
        simp [List.filter_cons, h1, ih]

theorem is_in_snapshot_remove (db : SnapshotDatabase) (p q : String) :
    (db.remove_new_file p).is_in_snapshot q = db.is_in_snapshot q := rfl

theorem snapshot_try_record (f : FilterEngine) (fs : FSView) (now : Int)
    (db : SnapshotDatabase) (p : String) :
    (try_record f fs now db p).snapshot = db.snapshot := by
  unfold try_record
  split
  · rfl
  split
  · rfl
  split
  · rfl
  · rfl

theorem should_include_none (f : FilterEngine) (fs : FSView) (p : String)
    (h : fs p = none) : f.should_include fs p = false := by
  simp [FilterEngine.should_include, is_zero_byte, h]

theorem should_include_zero (f : FilterEngine) (fs : FSView) (p : String)
    (st : FileStat) (hfs : fs p = some st) (hsz : st.size = 0) :
    f.should_include fs p = false := by
  simp [FilterEngine.should_include, is_zero_byte, hfs, hsz]

theorem should_include_some (f : FilterEngine) (fs : FSView) (p : String)
    (h : f.should_include fs p = true) : ∃ st, fs p = some st ∧ st.size ≠ 0 := by
  cases hfs : fs p with
  | none =>
    rw [should_include_none f fs p hfs] at h
    exact absurd h (by simp)
  | some st =>
    refine ⟨st, rfl, fun hsz => ?_⟩
    rw [should_include_zero f fs p st hfs hsz] at h
    exact absurd h (by simp)

/-! ## Claim theorems -/

/-- C1: Baseline exclusivity.  For a create event on a non-directory path, the
monitor adds a new-file record only if the path passes the relevance filter
and is not in the baseline; in particular, a create event on a path already in
the baseline adds no new-file record (the handler returns the state
unchanged). -/
theorem onCreated_baseline_exclusive
    (f : FilterEngine) (fs : FSView) (now : Int) (db : SnapshotDatabase)
    (ev : FileEvent) (hdir : ev.is_directory = false) :
    (∀ p, hasNewFile (on_created f fs now db ev) p = true →
        hasNewFile db p = true ∨
          (p = ev.src_path ∧ f.should_include fs ev.src_path = true ∧
            db.is_in_snapshot ev.src_path = false))
      ∧ (db.is_in_snapshot ev.src_path = true → on_created f fs now db ev = db) := by
  constructor
  · intro p hp
    rw [on_created, if_neg (by simp [hdir])] at hp
    unfold try_record at hp
    by_cases hinc : f.should_include fs ev.src_path
    · rw [if_neg (by simp [hinc])] at hp
      by_cases hsnap : db.is_in_snapshot ev.src_path
      · rw [if_pos hsnap] at hp
        exact Or.inl hp
      · rw [if_neg hsnap] at hp
        cases hfs : fs ev.src_path with
        | none =>
          rw [hfs] at hp
          exact Or.inl hp
        | some st =>
          rw [hfs, hasNewFile_record_new_file] at hp
          by_cases hps : p = ev.src_path
          · exact Or.inr ⟨hps, hinc, by simp [hsnap]⟩
          · rw [if_neg hps] at hp
            exact Or.inl hp
    · rw [if_pos (by simp [hinc])] at hp
      exact Or.inl hp
  · intro hsnap
    rw [on_created, if_neg (by simp [hdir])]
    simp [try_record, hsnap]

/-- A filesystem view used by the C1 witness: every path reads as an ordinary
non-hidden 8-byte file. -/
def fsC1 : FSView := fun _ => some ⟨true, false, false, 8⟩

/-- A database used by the C1 witness: one baseline row, no new files. -/
def dbC1 : SnapshotDatabase := ⟨[("c:\\docs\\old.txt", 0, 1)], []⟩

/-- Witness for C1: a create event on a path already in the baseline leaves
the database unchanged. -/
theorem onCreated_baseline_exclusive_witness :
    dbC1.is_in_snapshot "c:\\docs\\old.txt" = true
      ∧ on_created defaultEngine fsC1 5 dbC1 ⟨"c:\\docs\\old.txt", "", false⟩ = dbC1 :=
  ⟨by decide,
   (onCreated_baseline_exclusive defaultEngine fsC1 5 dbC1
      ⟨"c:\\docs\\old.txt", "", false⟩ rfl).2 (by decide)⟩

/-- C2: Move semantics.  A non-directory move A→B equals: remove the source
path unconditionally, then run the create-path filter+baseline check on the
destination.  Given a tracked new file at A, the move leaves the baseline
untouched, leaves no new-file record at A, and produces a new-file record at B
provided B passes the filter and is not in the baseline. -/
theorem onMoved_semantics
    (f : FilterEngine) (fs : FSView) (now : Int) (db : SnapshotDatabase)
    (A B : String) (hAB : A ≠ B)
    (htracked : hasNewFile db A = true)
    (hinc : f.should_include fs B = true)
    (hsnap : db.is_in_snapshot B = false) :
    on_moved f fs now db ⟨A, B, false⟩
        = try_record f fs now (db.remove_new_file A) B
      ∧ (on_moved f fs now db ⟨A, B, false⟩).snapshot = db.snapshot
      ∧ hasNewFile (on_moved f fs now db ⟨A, B, false⟩) A = false
      ∧ hasNewFile (on_moved f fs now db ⟨A, B, false⟩) B = true := by
  obtain ⟨st, hfs, hsz⟩ := should_include_some f fs B hinc
  have h1 : on_moved f fs now db ⟨A, B, false⟩
      = try_record f fs now (db.remove_new_file A) B := rfl
  have h2 : try_record f fs now (db.remove_new_file A) B
      = (db.remove_new_file A).record_new_file B st.size now (get_file_type B) := by
    rw [try_record, if_neg (by simp [hinc]),
      if_neg (by simp [is_in_snapshot_remove, hsnap]), hfs]
  refine ⟨h1, ?_, ?_, ?_⟩
  · rw [h1, h2]
    rfl
  · rw [h1, h2, hasNewFile_record_new_file, if_neg hAB,
      hasNewFile_remove_new_file, if_pos rfl]
  · rw [h1, h2, hasNewFile_record_new_file, if_pos rfl]

/-- A filesystem view used by the C2 witness: every path reads as an ordinary
non-hidden 3-byte file. -/
def fsC2 : FSView := fun _ => some ⟨true, false, false, 3⟩

/-- A database used by the C2 witness: empty baseline, one tracked new file. -/
def dbC2 : SnapshotDatabase := ⟨[], [⟨"c:\\d\\a.txt", 3, 50, "txt"⟩]⟩

/-- Witness for C2: moving the tracked file `a.txt` to `b.txt` drops the
record at the source and creates one at the destination. -/
theorem onMoved_semantics_witness :
    hasNewFile dbC2 "c:\\d\\a.txt" = true
      ∧ hasNewFile
          (on_moved defaultEngine fsC2 9 dbC2 ⟨"c:\\d\\a.txt", "c:\\d\\b.txt", false⟩)
          "c:\\d\\a.txt" = false
      ∧ hasNewFile
          (on_moved defaultEngine fsC2 9 dbC2 ⟨"c:\\d\\a.txt", "c:\\d\\b.txt", false⟩)
          "c:\\d\\b.txt" = true :=
  have h := onMoved_semantics defaultEngine fsC2 9 dbC2 "c:\\d\\a.txt" "c:\\d\\b.txt"
    (by decide) (by decide) (by decide) (by decide)
  ⟨by decide, h.2.2.1, h.2.2.2⟩

/-- C3: Shutdown block release guarantee.  When the review callback throws,
the coordinator's handler for the request (`_safe_callback`) invokes
`allow_shutdown` exactly once before returning, which releases the block; a
subsequent call to `allow_shutdown` is a no-op. -/
theorem safeCallback_releases_block
    (env : Win32Env) (s : HookState)
    (hok : env.destroyOk = true) (hw : s.hwnd.getD 0 ≠ 0)
    (hb : s.shutdown_blocked = true) :
    (safe_callback env .throws s).2 = 1
      ∧ (safe_callback env .throws s).1.shutdown_blocked = false
      ∧ allow_shutdown env (safe_callback env .throws s).1
          = (safe_callback env .throws s).1 := by
  have hw' : (s.hwnd.getD 0 != 0) = true := by
    simp [bne_iff_ne, hw]
  simp [safe_callback, allow_shutdown, hw', hb, hok]

/-- Witness for C3: a blocked hook with a live window handle and a throwing
callback ends up unblocked with exactly one release. -/
theorem safeCallback_releases_block_witness :
    (⟨some 42, true⟩ : HookState).shutdown_blocked = true
      ∧ (safe_callback ⟨true⟩ .throws ⟨some 42, true⟩).2 = 1
      ∧ (safe_callback ⟨true⟩ .throws ⟨some 42, true⟩).1.shutdown_blocked = false :=
  have h := safeCallback_releases_block ⟨true⟩ ⟨some 42, true⟩ rfl (by decide) rfl
  ⟨rfl, h.1, h.2.1⟩

/-- C5: the filter fails closed.  `should_include` is a total boolean function
of the filter state and the filesystem view (so it never raises past its
boundary), and on any path whose attribute/size reads raise an I/O error the
result is `false`. -/
theorem should_include_fails_closed
    (f : FilterEngine) (fs : FSView) (p : String) (h : fs p = none) :
    f.should_include fs p = false :=
  should_include_none f fs p h

/-- A filesystem view used by the C5 witness: every access raises. -/
def fsGone : FSView := fun _ => none

/-- Witness for C5: a vanished file is excluded. -/
theorem should_include_fails_closed_witness :
    fsGone "c:\\docs\\vanished.txt" = none
      ∧ defaultEngine.should_include fsGone "c:\\docs\\vanished.txt" = false :=
  ⟨rfl, should_include_fails_closed defaultEngine fsGone "c:\\docs\\vanished.txt" rfl⟩

/-- C4: Ordering contract.  `get_all_new_files` returns all new-file records
ordered by `created_at` descending (most recent first); in particular,
inserting records with `created_at` 1000/1500/2000 for paths old/mid/new
yields the paths [new, mid, old]. -/
theorem listNewFiles_ordering :
    (∀ db : SnapshotDatabase,
        List.Sorted (fun a b : NewFileView => b.created_at ≤ a.created_at)
            db.get_all_new_files
          ∧ (db.get_all_new_files.map NewFileView.path).Perm
              (db.new_files.map NewFileRow.path))
      ∧ ((((SnapshotDatabase.init.record_new_file "old" 1 1000
            "").record_new_file "mid" 1 1500 "").record_new_file "new" 1 2000
            "").get_all_new_files.map NewFileView.path = ["new", "mid", "old"]) := by
  constructor
  · intro db
    constructor
    · have hs : List.Sorted newerFirst (List.insertionSort newerFirst db.new_files) :=
        List.sorted_insertionSort newerFirst db.new_files
      exact List.Pairwise.map viewOf (fun a b h => h) hs
    · unfold SnapshotDatabase.get_all_new_files
      rw [List.map_map]
      exact (List.perm_insertionSort newerFirst db.new_files).map NewFileRow.path
  · decide

/-- C6: Filter tiering on concrete inputs.  With the default configuration:
the Temp path is excluded for every filesystem view because the path-fragment
tier fires (its `.txt` extension is not even in the ignored set); the
`node_modules` path is excluded by the directory-name tier (no fragment
matches); `report.pdf` is included whenever it is readable, non-empty, and not
hidden/system; and any zero-byte file is excluded under every configuration. -/
theorem filter_tiering_examples :
    (defaultEngine.matches_ignored_path_fragment
          (strLower "C:\\Users\\x\\AppData\\Local\\Temp\\a.txt") = true
      ∧ defaultEngine.matches_ignored_extension
          (strLower "C:\\Users\\x\\AppData\\Local\\Temp\\a.txt") = false
      ∧ ∀ fs : FSView,
          defaultEngine.should_include fs "C:\\Users\\x\\AppData\\Local\\Temp\\a.txt"
            = false)
    ∧ (defaultEngine.matches_ignored_path_fragment
          (strLower "project\\node_modules\\lib\\index.js") = false
      ∧ defaultEngine.matches_ignored_directory
          (strLower "project\\node_modules\\lib\\index.js") = true
      ∧ ∀ fs : FSView,
          defaultEngine.should_include fs "project\\node_modules\\lib\\index.js"
            = false)
    ∧ (∀ (fs : FSView) (st : FileStat), fs "report.pdf" = some st →
        st.size ≠ 0 → is_hidden_or_system fs "report.pdf" = false →
        defaultEngine.should_include fs "report.pdf" = true)
    ∧ (∀ (f : FilterEngine) (fs : FSView) (p : String) (st : FileStat),
        fs p = some st → st.size = 0 → f.should_include fs p = false) := by
  refine ⟨⟨by decide, by decide, fun fs => ?_⟩,
    ⟨by decide, by decide, fun fs => ?_⟩,
    fun fs st hfs hsz hhid => ?_,
    fun f fs p st hfs hsz => should_include_zero f fs p st hfs hsz⟩
  · have h1 : defaultEngine.matches_ignored_path_fragment
        (strLower "C:\\Users\\x\\AppData\\Local\\Temp\\a.txt") = true := by decide
    simp [FilterEngine.should_include, h1]
  · have h1 : defaultEngine.matches_ignored_path_fragment
        (strLower "project\\node_modules\\lib\\index.js") = false := by decide
    have h2 : defaultEngine.matches_ignored_directory
        (strLower "project\\node_modules\\lib\\index.js") = true := by decide
    simp [FilterEngine.should_include, h1, h2]
  · have h1 : defaultEngine.matches_ignored_path_fragment
        (strLower "report.pdf") = false := by decide
    have h2 : defaultEngine.matches_ignored_directory
        (strLower "report.pdf") = false := by decide
    have h3 : defaultEngine.matches_ignored_extension
        (strLower "report.pdf") = false := by decide
    have h4 : defaultEngine.show_hidden = false := rfl
    have h5 : is_zero_byte fs "report.pdf" = false := by
      rw [is_zero_byte, hfs]
      simp [hsz]
    simp [FilterEngine.should_include, h1, h2, h3, h4, hhid, h5]

/-- A filesystem view used by the C6 witness: `report.pdf` is a readable
ordinary 5-byte file; everything else raises. -/
def fsC6a : FSView := fun p =>
  if p == "report.pdf" then some ⟨true, false, false, 5⟩ else none

/-- A filesystem view used by the C6 witness: every path is a zero-byte
file. -/
def fsC6b : FSView := fun _ => some ⟨true, false, false, 0⟩

/-- Witness for C6: the `report.pdf` inclusion and the zero-byte exclusion at
concrete inputs. -/
theorem filter_tiering_examples_witness :
    defaultEngine.should_include fsC6a "report.pdf" = true
      ∧ defaultEngine.should_include fsC6b "notes.doc" = false :=
  ⟨filter_tiering_examples.2.2.1 fsC6a ⟨true, false, false, 5⟩ rfl (by decide)
      (by decide),
   filter_tiering_examples.2.2.2 defaultEngine fsC6b "notes.doc"
      ⟨true, false, false, 0⟩ rfl rfl⟩

/-- C7: Scanner pruning.  `_iter_files` yields exactly the same rows whether
or not a subdirectory whose lower-cased name is in the ignored-directory set
is present in the listing: the traversal never descends into it, so no
baseline row originates from its subtree, irrespective of the subtree's
contents. -/
theorem iterFiles_prunes_ignored
    (ign : List String) (recursive : Bool) (root : String) (n : String)
    (ch : List Entry) (pre post : List Entry)
    (h : ign.contains (strLower n) = true) :
    iterFiles ign recursive root (pre ++ Entry.dir n ch :: post)
      = iterFiles ign recursive root (pre ++ post) := by
  have hm : strLower n ∈ ign := by simpa using h
  induction pre with
  | nil => simp [iterFiles, iterEntry, hm]
  | cons e es ih => simp [iterFiles, ih]

/-- Witness for C7: a `node_modules` subtree contributes nothing next to a
kept file. -/
theorem iterFiles_prunes_ignored_witness :
    defaultEngine.ignored_directories.contains (strLower "node_modules") = true
      ∧ iterFiles defaultEngine.ignored_directories true "c:\\proj"
          ([Entry.file "keep.txt" 1 7]
            ++ Entry.dir "node_modules" [Entry.file "a.js" 2 5] :: [])
        = iterFiles defaultEngine.ignored_directories true "c:\\proj"
            ([Entry.file "keep.txt" 1 7] ++ []) :=
  ⟨by decide,
   iterFiles_prunes_ignored defaultEngine.ignored_directories true "c:\\proj"
     "node_modules" [Entry.file "a.js" 2 5] [Entry.file "keep.txt" 1 7] []
     (by decide)⟩

/-! ## Lemmas about `INSERT OR IGNORE` batches -/

theorem any_path_eq (s : List SnapRow) (p : String) :
    (s.any fun row => row.1 == p) = true ↔ p ∈ s.map Prod.fst := by
  simp [List.any_eq_true, List.mem_map]

theorem insertIgnore_of_mem (s : List SnapRow) (r : SnapRow)
    (h : r.1 ∈ s.map Prod.fst) : insertIgnore s r = s := by
  unfold insertIgnore
  rw [if_pos ((any_path_eq s r.1).mpr h)]

theorem mem_paths_insertIgnore (s : List SnapRow) (r : SnapRow) (p : String) :
    p ∈ (insertIgnore s r).map Prod.fst ↔ p ∈ s.map Prod.fst ∨ p = r.1 := by
  unfold insertIgnore
  split
  next hany =>
    have hr : r.1 ∈ s.map Prod.fst := (any_path_eq s r.1).mp hany
    constructor
    · exact Or.inl
    · rintro (hm | hm)
      · exact hm
      · exact hm ▸ hr
  next =>
    simp [List.map_append]

theorem mem_paths_foldl (b : List SnapRow) (s : List SnapRow) (p : String) :
    p ∈ (b.foldl insertIgnore s).map Prod.fst ↔
      p ∈ s.map Prod.fst ∨ p ∈ b.map Prod.fst := by
  induction b generalizing s with
  | nil => simp
  | cons r rs ih =>
    rw [List.foldl_cons, ih, mem_paths_insertIgnore]
    simp [or_assoc]

theorem foldl_insertIgnore_eq_of_mem (b : List SnapRow) (s : List SnapRow)
    (hb : ∀ r ∈ b, r.1 ∈ s.map Prod.fst) : b.foldl insertIgnore s = s := by
  induction b generalizing s with
  | nil => rfl
  | cons r rs ih =>
    rw [List.foldl_cons, insertIgnore_of_mem s r (hb r (List.mem_cons_self r rs))]
    exact ih s fun x hx => hb x (List.mem_cons_of_mem r hx)

theorem find?_path_append_of_mem (s t : List SnapRow) (p : String)
    (h : p ∈ s.map Prod.fst) :
    ((s ++ t).find? fun row => row.1 == p) = s.find? fun row => row.1 == p := by
  induction s with
  | nil => simp at h
  | cons r rs ih =>
    by_cases hr : r.1 = p
    · rw [List.cons_append, List.find?_cons_of_pos _ (by simp [hr]),
        List.find?_cons_of_pos _ (by simp [hr])]
    · rw [List.cons_append, List.find?_cons_of_neg _ (by simp [hr]),
        List.find?_cons_of_neg _ (by simp [hr])]
      apply ih
      rcases List.mem_cons.mp (List.map_cons Prod.fst r rs ▸ h) with hm | hm
      · exact absurd hm.symm hr
      · exact hm

theorem find?_insertIgnore_of_mem (s : List SnapRow) (r : SnapRow) (p : String)
    (h : p ∈ s.map Prod.fst) :
    ((insertIgnore s r).find? fun row => row.1 == p)
      = s.find? fun row => row.1 == p := by
  unfold insertIgnore
  split
  · rfl
  · exact find?_path_append_of_mem s [r] p h

theorem find?_foldl_of_mem (b : List SnapRow) (s : List SnapRow) (p : String)
    (h : p ∈ s.map Prod.fst) :
    ((b.foldl insertIgnore s).find? fun row => row.1 == p)
      = s.find? fun row => row.1 == p := by
  induction b generalizing s with
  | nil => rfl
  | cons r rs ih =>
    rw [List.foldl_cons,
      ih (insertIgnore s r) ((mem_paths_insertIgnore s r p).mpr (Or.inl h)),
      find?_insertIgnore_of_mem s r p h]

theorem nodup_paths_insertIgnore (s : List SnapRow) (r : SnapRow)
    (h : (s.map Prod.fst).Nodup) :
    ((insertIgnore s r).map Prod.fst).Nodup := by
  unfold insertIgnore
  split
  next => exact h
  next hany =>
    have hnm : r.1 ∉ s.map Prod.fst := fun hm =>
      hany ((any_path_eq s r.1).mpr hm)
    rw [List.map_append]
    simp [List.nodup_append, h, hnm]

theorem nodup_paths_foldl (b : List SnapRow) (s : List SnapRow)
    (h : (s.map Prod.fst).Nodup) :
    ((b.foldl insertIgnore s).map Prod.fst).Nodup := by
  induction b generalizing s with
  | nil => exact h
  | cons r rs ih =>
    rw [List.foldl_cons]
    exact ih (insertIgnore s r) (nodup_paths_insertIgnore s r h)

/-- C8: Idempotent baseline insert.  Re-submitting a batch changes nothing;
a path already stored keeps its first row (collisions are ignored, not
errors); and, starting from a duplicate-free table, after a batch every
batched path has exactly one baseline row. -/
theorem store_snapshot_batch_idempotent
    (db : SnapshotDatabase) (b : List SnapRow) :
    (db.store_snapshot_batch b).store_snapshot_batch b = db.store_snapshot_batch b
      ∧ (∀ p, p ∈ snapPaths db →
          snapLookup (db.store_snapshot_batch b) p = snapLookup db p)
      ∧ ((snapPaths db).Nodup →
          (snapPaths (db.store_snapshot_batch b)).Nodup
            ∧ ∀ r ∈ b, (snapPaths (db.store_snapshot_batch b)).count r.1 = 1) := by
  refine ⟨?_, ?_, ?_⟩
  · have hsnap : b.foldl insertIgnore (b.foldl insertIgnore db.snapshot)
        = b.foldl insertIgnore db.snapshot :=
      foldl_insertIgnore_eq_of_mem b _ fun r hr =>
        (mem_paths_foldl b db.snapshot r.1).mpr
          (Or.inr (List.mem_map_of_mem Prod.fst hr))
    simp [SnapshotDatabase.store_snapshot_batch, hsnap]
  · intro p hp
    exact find?_foldl_of_mem b db.snapshot p hp
  · intro hnd
    refine ⟨nodup_paths_foldl b db.snapshot hnd, fun r hr => ?_⟩
    exact List.count_eq_one_of_mem (nodup_paths_foldl b db.snapshot hnd)
      ((mem_paths_foldl b db.snapshot r.1).mpr
        (Or.inr (List.mem_map_of_mem Prod.fst hr)))

/-- A database used by the C8 witness: one stored baseline row. -/
def dbC8 : SnapshotDatabase := ⟨[("c:\\a.txt", 1, 2)], []⟩

/-- A batch used by the C8 witness: a colliding row for the stored path plus
two rows for the same fresh path. -/
def batchC8 : List SnapRow := [("c:\\a.txt", 9, 9), ("c:\\b.txt", 3, 4), ("c:\\b.txt", 5, 6)]

/-- Witness for C8 at a concrete database and batch. -/
theorem store_snapshot_batch_idempotent_witness :
    (dbC8.store_snapshot_batch batchC8).store_snapshot_batch batchC8
        = dbC8.store_snapshot_batch batchC8
      ∧ snapLookup (dbC8.store_snapshot_batch batchC8) "c:\\a.txt"
          = snapLookup dbC8 "c:\\a.txt"
      ∧ (snapPaths (dbC8.store_snapshot_batch batchC8)).count "c:\\b.txt" = 1 :=
  have h := store_snapshot_batch_idempotent dbC8 batchC8
  ⟨h.1, h.2.1 "c:\\a.txt" (by decide), (h.2.2 (by decide)).2 ("c:\\b.txt", 3, 4) (by decide)⟩

/-- Entries used by the C9 theorem: a zero-byte file, a file with an ignored
extension, and a hidden file, all placed directly under an ordinary root. -/
def scanEntriesC9 : List Entry :=
  [Entry.file "empty.txt" 11 0, Entry.file "junk.tmp" 12 5,
   Entry.file "hidden.txt" 13 7]

/-- The baseline produced by scanning `scanEntriesC9` under `c:\data`. -/
def scanDbC9 : SnapshotDatabase :=
  SnapshotDatabase.init.store_snapshot_batch
    (iterFiles defaultEngine.ignored_directories true "c:\\data" scanEntriesC9)

/-- The baseline produced by scanning one ordinary file under `c:\windows`, a
root every filter fragment tier rejects. -/
def scanDbC9w : SnapshotDatabase :=
  SnapshotDatabase.init.store_snapshot_batch
    (iterFiles defaultEngine.ignored_directories true "c:\\windows"
      [Entry.file "notes.txt" 14 9])

/-- The filesystem view matching `scanEntriesC9`: `empty.txt` is zero-byte,
`hidden.txt` carries the hidden attribute, everything else is an ordinary
5-byte file. -/
def fsC9 : FSView := fun p =>
  if p == "c:\\data\\empty.txt" then some ⟨true, false, false, 0⟩
  else if p == "c:\\data\\hidden.txt" then some ⟨true, true, false, 7⟩
  else some ⟨true, false, false, 5⟩

/-- C9 (implicit): the baseline scanner records every regular non-symlink file
it enumerates without consulting the relevance filter — the enumeration yields
every `file` entry of a listing no matter its name, extension or size, and
skips only non-file entries and (per C7) ignored-named subdirectories.
Consequently a zero-byte file, an ignored-extension file, a hidden file, and a
file under a fragment-matching root all become baseline rows while the filter
rejects each of them: baseline membership is strictly broader than filter
relevance. -/
theorem scanner_ignores_filter :
    (∀ (ign : List String) (recursive : Bool) (root : String)
        (entries : List Entry) (n : String) (m : Int) (s : Nat),
        Entry.file n m s ∈ entries →
        (joinPath root n, m, s) ∈ iterFiles ign recursive root entries)
    ∧ (∀ (ign : List String) (recursive : Bool) (root n : String),
        iterEntry ign recursive root (Entry.other n) = [])
    ∧ (scanDbC9.is_in_snapshot "c:\\data\\empty.txt" = true
        ∧ defaultEngine.should_include fsC9 "c:\\data\\empty.txt" = false)
    ∧ (scanDbC9.is_in_snapshot "c:\\data\\junk.tmp" = true
        ∧ defaultEngine.should_include fsC9 "c:\\data\\junk.tmp" = false)
    ∧ (scanDbC9.is_in_snapshot "c:\\data\\hidden.txt" = true
        ∧ defaultEngine.should_include fsC9 "c:\\data\\hidden.txt" = false)
    ∧ (scanDbC9w.is_in_snapshot "c:\\windows\\notes.txt" = true
        ∧ ∀ fs : FSView,
            defaultEngine.should_include fs "c:\\windows\\notes.txt" = false) := by
  refine ⟨?_, fun ign recursive root n => rfl,
    ⟨by decide, by decide⟩, ⟨by decide, by decide⟩, ⟨by decide, by decide⟩,
    ⟨by decide, fun fs => ?_⟩⟩
  · intro ign recursive root entries n m s hmem
    induction entries with
    | nil => exact absurd hmem (List.not_mem_nil _)
    | cons e es ih =>
      rcases List.mem_cons.mp hmem with he | he
      · subst he
        simp [iterFiles, iterEntry]
      · simp only [iterFiles, List.mem_append]
        exact Or.inr (ih he)
  · have h1 : defaultEngine.matches_ignored_path_fragment
        (strLower "c:\\windows\\notes.txt") = true := by decide
    simp [FilterEngine.should_include, h1]

/-- Witness for C9: the membership clause applied to a one-file listing. -/
theorem scanner_ignores_filter_witness :
    Entry.file "cv.pdf" 21 4 ∈ [Entry.file "cv.pdf" 21 4]
      ∧ (joinPath "d:\\docs" "cv.pdf", 21, 4)
          ∈ iterFiles [] true "d:\\docs" [Entry.file "cv.pdf" 21 4] :=
  ⟨List.mem_singleton.mpr rfl,
   scanner_ignores_filter.1 [] true "d:\\docs" [Entry.file "cv.pdf" 21 4]
     "cv.pdf" 21 4 (List.mem_singleton.mpr rfl)⟩

/-- Two paths that are the same up to ASCII letter case but not identical. -/
def differsOnlyInCase (q p : String) : Prop :=
  strLower q = strLower p ∧ q ≠ p

instance (q p : String) : Decidable (differsOnlyInCase q p) :=
  inferInstanceAs (Decidable (strLower q = strLower p ∧ q ≠ p))

/-- A database holding two baseline rows whose paths differ only in case,
reachable through one `store_snapshot_batch` call. -/
def caseCexDb : SnapshotDatabase := ⟨[("a.txt", 0, 1), ("A.txt", 0, 2)], []⟩

/-- Counterexample to C10 as stated: with `a.txt` stored, the query `A.txt`
differs from that stored path only in letter case, yet `is_in_snapshot`
returns `true` because `A.txt` is itself a stored path. -/
theorem is_in_snapshot_case_claim_cex :
    "a.txt" ∈ snapPaths caseCexDb
      ∧ differsOnlyInCase "A.txt" "a.txt"
      ∧ caseCexDb.is_in_snapshot "A.txt" = true :=
  ⟨by decide, by decide, by decide⟩

/-- C10 (amended): `is_in_snapshot` tests membership by exact, case-sensitive
string equality on the stored paths, even though the filter's string tiers
compare after lower-casing; so for a stored path `p` and a query `q` that
differs from `p` only in letter case — provided `q` is not itself a stored
path — `is_in_snapshot q` is `false`, and a create event reported at `q` is
treated as new whenever `q` passes the filter. -/
theorem is_in_snapshot_case_sensitive
    (db : SnapshotDatabase) (p q : String) :
    (db.is_in_snapshot q = true ↔ q ∈ snapPaths db)
      ∧ (differsOnlyInCase q p →
          ∀ f : FilterEngine,
            f.matches_ignored_path_fragment (strLower q)
                = f.matches_ignored_path_fragment (strLower p)
              ∧ f.matches_ignored_directory (strLower q)
                  = f.matches_ignored_directory (strLower p)
              ∧ f.matches_ignored_extension (strLower q)
                  = f.matches_ignored_extension (strLower p))
      ∧ (p ∈ snapPaths db → differsOnlyInCase q p → q ∉ snapPaths db →
          db.is_in_snapshot q = false
            ∧ ∀ (f : FilterEngine) (fs : FSView) (now : Int),
                f.should_include fs q = true →
                hasNewFile (on_created f fs now db ⟨q, "", false⟩) q = true) := by
  have hiff : db.is_in_snapshot q = true ↔ q ∈ snapPaths db :=
    any_path_eq db.snapshot q
  refine ⟨hiff, ?_, ?_⟩
  · intro hd f
    rw [hd.1]
    exact ⟨rfl, rfl, rfl⟩
  · intro hp hd hq
    have hfalse : db.is_in_snapshot q = false := by
      cases hin : db.is_in_snapshot q
      · rfl
      · exact absurd (hiff.mp hin) hq
    refine ⟨hfalse, fun f fs now hinc => ?_⟩
    obtain ⟨st, hfs, hsz⟩ := should_include_some f fs q hinc
    show hasNewFile (try_record f fs now db q) q = true
    rw [try_record, if_neg (by simp [hinc]), if_neg (by simp [hfalse]), hfs,
      hasNewFile_record_new_file, if_pos rfl]

/-- A database used by the C10 witness: one stored baseline row. -/
def caseDb1 : SnapshotDatabase := ⟨[("readme.txt", 0, 3)], []⟩

/-- A filesystem view used by the C10 witness: every path is an ordinary
5-byte file. -/
def fsCase : FSView := fun _ => some ⟨true, false, false, 5⟩

/-- Witness for C10 (amended): the case-variant query misses the baseline and
its create event is recorded as new. -/
theorem is_in_snapshot_case_sensitive_witness :
    caseDb1.is_in_snapshot "README.txt" = false
      ∧ hasNewFile
          (on_created defaultEngine fsCase 7 caseDb1 ⟨"README.txt", "", false⟩)
          "README.txt" = true :=
  have h := (is_in_snapshot_case_sensitive caseDb1 "readme.txt" "README.txt").2.2
    (by decide) (by decide) (by decide)
  ⟨h.1, h.2 defaultEngine fsCase 7 (by decide)⟩

end SessionClean
